import Mathlib

/-!
# Verification of the kitchenmanager core

Shallow embedding of the quantity/low-stock/replenishment machinery from
`recipes/views.py` (`pantry_reduce_quantity`) and of the fingerprint-gated
nutrition enrichment from `recipes/models.py` (`Recipe.save`,
`Recipe._generate_nutrition`), together with proofs of the specified
properties.

Python `Decimal` arithmetic is exact decimal arithmetic, embedded as `ℚ`.
Database rows are embedded as Lean structures; the shopping-list table is a
`List ShoppingItem`.
-/

namespace KitchenManager

/-- A pantry item row (`recipes/models.py`, `PantryItem`), restricted to the
fields the quantity endpoint touches.  `quantity_amount` and
`low_stock_threshold` are nullable decimal columns, hence `Option ℚ`. -/
structure PantryItem where
  name : String
  quantity_amount : Option ℚ
  unit : String
  low_stock_threshold : Option ℚ
  used : Bool
  deriving Repr, DecidableEq

/-- A shopping-list row (`recipes/models.py`, `ShoppingItem`); the model's
`section` column defaults to `"other"` and `checked` defaults to `false`. -/
structure ShoppingItem where
  name : String
  quantity : String
  section_ : String
  checked : Bool
  deriving Repr, DecidableEq

/-- Modelled from the spec: `isLowStock(item)` — true iff `quantityAmount` is
set, `lowStockThreshold` is set, and `quantityAmount <= lowStockThreshold`.
The method `PantryItem.is_low_stock` is referenced from `views.py` and
`pantry_list` but its definition is not among the provided sources. -/
def PantryItem.is_low_stock (item : PantryItem) : Bool :=
  match item.quantity_amount, item.low_stock_threshold with
  | some q, some t => decide (q ≤ t)
  | _, _ => false

/-- Modelled from the spec: `reduce(item, amount)` — sets
`quantityAmount = max(0, quantityAmount - amount)`, sets `used = true` when
the result is `0`, and returns `reachedZero` (true iff the result is exactly
zero).  The method `PantryItem.reduce_quantity` is called from `views.py` but
its definition is not among the provided sources.  When no numeric quantity
is tracked the operation is a no-op (the caller guards this case). -/
def PantryItem.reduce_quantity (item : PantryItem) (amount : ℚ) :
    PantryItem × Bool :=
  match item.quantity_amount with
  | none => (item, false)
  | some q =>
    let newq : ℚ := max 0 (q - amount)
    if newq = 0 then
      ({ item with quantity_amount := some newq, used := true }, true)
    else
      ({ item with quantity_amount := some newq }, false)

/-- The database state seen by one call of the quantity endpoint: the item
row being mutated and the shopping-list table. -/
structure State where
  item : PantryItem
  shopping : List ShoppingItem
  deriving Repr, DecidableEq

/-- The POST parameter `amount` after `Decimal(...)` parsing: either a valid
decimal or an unparsable value (raising `InvalidOperation`/`TypeError`). -/
inductive AmountInput where
  | valid (a : ℚ)
  | invalid
  deriving Repr, DecidableEq

/-- `ShoppingItem.objects.filter(name__iexact=item.name, checked=False).exists()`:
is there an unchecked entry whose name matches case-insensitively? -/
def existsUnchecked (shopping : List ShoppingItem) (name : String) : Bool :=
  shopping.any fun s => s.name.toLower == name.toLower && s.checked == false

/-- `ShoppingItem.objects.create(name=item.name, quantity=item.unit)` —
the unset columns take the model defaults: `section="other"`, `checked=False`. -/
def newShoppingEntry (item : PantryItem) : ShoppingItem :=
  { name := item.name, quantity := item.unit, section_ := "other",
    checked := false }

/-- The JSON body returned by the quantity endpoint (success case). -/
structure ReduceResponse where
  quantity_amount : Option ℚ
  unit : String
  reached_zero : Bool
  added_to_shopping : Bool
  is_low_stock : Bool
  low_stock_threshold : Option ℚ
  became_low_stock : Bool
  deriving Repr, DecidableEq

/-- `pantry_reduce_quantity` (`recipes/views.py`, lines 188–235).  Returns the
post-call database state paired with either an error message (HTTP 400; the
error paths return before any mutation, so the state is passed through
unchanged) or the success JSON. -/
def pantry_reduce_quantity (st : State) (input : AmountInput) :
    State × Except String ReduceResponse :=
  match st.item.quantity_amount with
  | none => (st, Except.error "Item has no numeric quantity")
  | some q =>
    match input with
    | AmountInput.invalid => (st, Except.error "Invalid amount")
    | AmountInput.valid amount =>
      if amount > 0 then
        let was_low_stock := st.item.is_low_stock
        let rq := st.item.reduce_quantity amount
        let item' := rq.1
        let reached_zero := rq.2
        if reached_zero then
          let exists_ := existsUnchecked st.shopping st.item.name
          let shopping' :=
            if exists_ then st.shopping
            else st.shopping ++ [newShoppingEntry st.item]
          let added := !exists_
          (⟨item', shopping'⟩, Except.ok
            { quantity_amount := item'.quantity_amount, unit := item'.unit,
              reached_zero := true, added_to_shopping := added,
              is_low_stock := item'.is_low_stock,
              low_stock_threshold := item'.low_stock_threshold,
              became_low_stock := false })
        else if item'.is_low_stock && !was_low_stock then
          let exists_ := existsUnchecked st.shopping st.item.name
          let shopping' :=
            if exists_ then st.shopping
            else st.shopping ++ [newShoppingEntry st.item]
          let added := !exists_
          (⟨item', shopping'⟩, Except.ok
            { quantity_amount := item'.quantity_amount, unit := item'.unit,
              reached_zero := false, added_to_shopping := added,
              is_low_stock := item'.is_low_stock,
              low_stock_threshold := item'.low_stock_threshold,
              became_low_stock := true })
        else
          (⟨item', st.shopping⟩, Except.ok
            { quantity_amount := item'.quantity_amount, unit := item'.unit,
              reached_zero := false, added_to_shopping := false,
              is_low_stock := item'.is_low_stock,
              low_stock_threshold := item'.low_stock_threshold,
              became_low_stock := false })
      else if amount < 0 then
        let newq := q + |amount|
        let used' := if st.item.used && decide (newq > 0) then false
                     else st.item.used
        let item' := { st.item with
                       quantity_amount := some newq, used := used' }
        (⟨item', st.shopping⟩, Except.ok
          { quantity_amount := item'.quantity_amount, unit := item'.unit,
            reached_zero := false, added_to_shopping := false,
            is_low_stock := item'.is_low_stock,
            low_stock_threshold := item'.low_stock_threshold,
            became_low_stock := false })
      else
        (st, Except.ok
          { quantity_amount := st.item.quantity_amount, unit := st.item.unit,
            reached_zero := false, added_to_shopping := false,
            is_low_stock := st.item.is_low_stock,
            low_stock_threshold := st.item.low_stock_threshold,
            became_low_stock := false })

/-- Post-state of one endpoint call. -/
def step (st : State) (a : ℚ) : State :=
  (pantry_reduce_quantity st (AmountInput.valid a)).1

/-- Run a sequence of endpoint calls, threading the state. -/
def runSeq (st : State) : List ℚ → State
  | [] => st
  | a :: rest => runSeq (step st a) rest

/-- Run a sequence of endpoint calls, also collecting each call's outcome. -/
def runSeqResponses (st : State) :
    List ℚ → State × List (Except String ReduceResponse)
  | [] => (st, [])
  | a :: rest =>
    let p := pantry_reduce_quantity st (AmountInput.valid a)
    let q := runSeqResponses p.1 rest
    (q.1, p.2 :: q.2)

/-! ## Recipe enrichment (`recipes/models.py`) -/

/-- A recipe row, restricted to the fields `Recipe.save` and
`Recipe._generate_nutrition` touch.  The nullable numeric nutrition columns
are `Option ℚ`; `ingredients_hash` is the `_ingredients_hash` column (the
spec's `lastEnrichedFingerprint`). -/
structure Recipe where
  title : String
  slug : String
  ingredients : String
  servings : Nat
  calories : Option ℚ
  protein_g : Option ℚ
  carbs_g : Option ℚ
  fat_g : Option ℚ
  fiber_g : Option ℚ
  sugar_g : Option ℚ
  sodium_mg : Option ℚ
  ingredients_hash : String
  deriving Repr, DecidableEq

/-- The JSON object parsed from the enrichment response: each of the seven
expected keys either yields a number (`some`) or fails extraction — key
missing, or `int(...)`/`float(...)` raising (`none`). -/
structure RawNutrition where
  calories : Option ℚ
  protein_g : Option ℚ
  carbs_g : Option ℚ
  fat_g : Option ℚ
  fiber_g : Option ℚ
  sugar_g : Option ℚ
  sodium_mg : Option ℚ
  deriving Repr, DecidableEq

/-- Outcome of one call of the external enrichment client, as observed by
`_generate_nutrition`'s `try` block: `fail` is any exception before field
extraction (network error, unparsable/malformed JSON); `ok` is a parsed
JSON object. -/
inductive EnrichResult where
  | fail
  | ok (data : RawNutrition)
  deriving Repr, DecidableEq

/-- The ambient environment of a save: the slugifier, the content-hash
function (`hashlib.sha256(...).hexdigest()`), the configured API key and the
external client's behaviour as a function of the request content. -/
structure EnrichEnv where
  slugify : String → String
  hsh : String → String
  api_key : String
  client : String → Nat → EnrichResult

/-- The guard at the top of `_generate_nutrition`:
`if not api_key or api_key == "your-api-key-here"` skips estimation. -/
def EnrichEnv.api_configured (env : EnrichEnv) : Bool :=
  !(env.api_key == "" || env.api_key == "your-api-key-here")

/-- `Recipe._compute_ingredients_hash`:
`sha256(f"{self.ingredients}|{self.servings}")`. -/
def compute_ingredients_hash (env : EnrichEnv) (r : Recipe) : String :=
  env.hsh (r.ingredients ++ "|" ++ toString r.servings)

/-- Python `int(x)` on a number: truncation toward zero. -/
def truncInt (x : ℚ) : ℤ :=
  if 0 ≤ x then ⌊x⌋ else -⌊-x⌋

/-- Python `round(x, 1)` on a number: round to one decimal place, ties to
even (banker's rounding). -/
def roundHalfEvenInt (x : ℚ) : ℤ :=
  if x - ⌊x⌋ < 1/2 then ⌊x⌋
  else if x - ⌊x⌋ > 1/2 then ⌊x⌋ + 1
  else if ⌊x⌋ % 2 = 0 then ⌊x⌋ else ⌊x⌋ + 1

def round1 (x : ℚ) : ℚ := (roundHalfEvenInt (10 * x) : ℚ) / 10

/-- The seven normalized values passed to `Recipe.objects.filter(pk).update`. -/
structure NutritionUpdate where
  calories : ℚ
  protein_g : ℚ
  carbs_g : ℚ
  fat_g : ℚ
  fiber_g : ℚ
  sugar_g : ℚ
  sodium_mg : ℚ
  deriving Repr, DecidableEq

/-- Evaluation of the seven `update(...)` arguments:
`int(data["calories"])`, `round(float(data["protein_g"]), 1)`, … .  If any
extraction raises, the exception aborts the whole statement before `update`
runs, so the result is all-or-nothing. -/
def extract_all (d : RawNutrition) : Option NutritionUpdate := do
  let cal ← d.calories
  let p ← d.protein_g
  let c ← d.carbs_g
  let f ← d.fat_g
  let fi ← d.fiber_g
  let s ← d.sugar_g
  let so ← d.sodium_mg
  pure { calories := (truncInt cal : ℚ), protein_g := round1 p,
         carbs_g := round1 c, fat_g := round1 f, fiber_g := round1 fi,
         sugar_g := round1 s, sodium_mg := (truncInt so : ℚ) }

/-- `Recipe._generate_nutrition` (`recipes/models.py`, lines 85–134).
Returns the post-call row together with the number of external client calls
made (0 or 1).  The `except Exception` clause swallows every failure, leaving
the row untouched. -/
def generate_nutrition (env : EnrichEnv) (r : Recipe)
    (ingredients_hash : String) : Recipe × Nat :=
  if !env.api_configured then (r, 0)
  else
    match env.client r.ingredients r.servings with
    | EnrichResult.fail => (r, 1)
    | EnrichResult.ok d =>
      match extract_all d with
      | none => (r, 1)
      | some n =>
        ({ r with
           calories := some n.calories, protein_g := some n.protein_g,
           carbs_g := some n.carbs_g, fat_g := some n.fat_g,
           fiber_g := some n.fiber_g, sugar_g := some n.sugar_g,
           sodium_mg := some n.sodium_mg,
           ingredients_hash := ingredients_hash }, 1)

/-- Python truthiness of `self.ingredients.strip()`: true iff the string
contains at least one non-whitespace character. -/
def stripNonempty (s : String) : Bool :=
  s.toList.any fun c => !c.isWhitespace

/-- The first step of `Recipe.save`:
`if not self.slug: self.slug = slugify(self.title)`. -/
def slug_fill (env : EnrichEnv) (r : Recipe) : Recipe :=
  if r.slug = "" then { r with slug := env.slugify r.title } else r

/-- `Recipe.save` (`recipes/models.py`, lines 72–83): fill the slug if empty,
persist the primary fields (`super().save()`), and when the ingredients hash
changed and the ingredients text is non-blank, run `_generate_nutrition`.
Returns the post-save row and the number of external client calls. -/
def Recipe.save (env : EnrichEnv) (r : Recipe) : Recipe × Nat :=
  let r := slug_fill env r
  let new_hash := compute_ingredients_hash env r
  let ingredients_changed := new_hash != r.ingredients_hash
  if ingredients_changed && stripNonempty r.ingredients then
    generate_nutrition env r new_hash
  else
    (r, 0)

/-- The dispatcher's ensure-entry operation: create an entry for the item
(name = item name, quantity text = item unit) only when no unchecked entry
with that name (case-insensitively) exists. -/
def ensureEntry (shopping : List ShoppingItem) (item : PantryItem) :
    List ShoppingItem :=
  if existsUnchecked shopping item.name then shopping
  else shopping ++ [newShoppingEntry item]

/-! ## Theorems -/

/-- C8: the quantity endpoint rejects an unparsable amount, and rejects an
item with no numeric quantity, with a user-visible error and without
mutating any state: the returned state (item and shopping list) is exactly
the input state. -/
theorem C8_rejections_mutate_nothing (st : State) (input : AmountInput)
    (h : st.item.quantity_amount = none ∨ input = AmountInput.invalid) :
    (pantry_reduce_quantity st input).1 = st ∧
      ∃ msg, (pantry_reduce_quantity st input).2 = Except.error msg := by
  rcases h with h | h
  · rw [pantry_reduce_quantity, h]
    exact ⟨rfl, _, rfl⟩
  · subst h
    rw [pantry_reduce_quantity]
    match hq : st.item.quantity_amount with
    | none => exact ⟨rfl, _, rfl⟩
    | some q => exact ⟨rfl, _, rfl⟩

theorem C8_rejections_mutate_nothing_witness :
    (({ item := { name := "Milk", quantity_amount := none, unit := "qt",
                  low_stock_threshold := none, used := false },
        shopping := [] } : State).item.quantity_amount = none ∨
      AmountInput.valid 2 = AmountInput.invalid) ∧
    ((pantry_reduce_quantity
        { item := { name := "Milk", quantity_amount := none, unit := "qt",
                    low_stock_threshold := none, used := false },
          shopping := [] } (AmountInput.valid 2)).1 =
      { item := { name := "Milk", quantity_amount := none, unit := "qt",
                  low_stock_threshold := none, used := false },
        shopping := [] } ∧
      ∃ msg, (pantry_reduce_quantity
        { item := { name := "Milk", quantity_amount := none, unit := "qt",
                    low_stock_threshold := none, used := false },
          shopping := [] } (AmountInput.valid 2)).2 = Except.error msg) :=
  ⟨Or.inl rfl, C8_rejections_mutate_nothing _ _ (Or.inl rfl)⟩

/-- C10: every shopping entry the dispatcher creates has `checked = false`,
`section = "other"`, name equal to the pantry item's name and quantity text
equal to the item's unit: any endpoint call either leaves the shopping list
unchanged or appends exactly one such entry. -/
theorem C10_dispatcher_entry_shape (st : State) (input : AmountInput) :
    (pantry_reduce_quantity st input).1.shopping = st.shopping ∨
      ∃ e, (pantry_reduce_quantity st input).1.shopping = st.shopping ++ [e] ∧
        e.checked = false ∧ e.section_ = "other" ∧
        e.name = st.item.name ∧ e.quantity = st.item.unit := by
  rw [pantry_reduce_quantity]
  match hq : st.item.quantity_amount with
  | none => exact Or.inl rfl
  | some q =>
    match input with
    | AmountInput.invalid => exact Or.inl rfl
    | AmountInput.valid a =>
      simp only
      split
      · split
        · split
          · exact Or.inl rfl
          · exact Or.inr ⟨newShoppingEntry st.item, rfl, rfl, rfl, rfl, rfl⟩
        · split
          · split
            · exact Or.inl rfl
            · exact Or.inr ⟨newShoppingEntry st.item, rfl, rfl, rfl, rfl, rfl⟩
          · exact Or.inl rfl
      · split
        · exact Or.inl rfl
        · exact Or.inl rfl

/-- C7: a negative valid amount replenishes: the quantity increases by the
absolute value of the amount, `used` is cleared exactly when it was set and
the new quantity is positive, the shopping list is untouched, and the
response reports no `reachedZero`/`becameLowStock`/`addedToShopping` event. -/
theorem C7_replenish_path (st : State) (q a : ℚ)
    (hq : st.item.quantity_amount = some q) (ha : a < 0) :
    (pantry_reduce_quantity st (AmountInput.valid a)).1.item.quantity_amount
        = some (q + |a|) ∧
    ((pantry_reduce_quantity st (AmountInput.valid a)).1.item.used =
      (st.item.used && !decide (0 < q + |a|))) ∧
    (pantry_reduce_quantity st (AmountInput.valid a)).1.shopping
        = st.shopping ∧
    ∃ resp, (pantry_reduce_quantity st (AmountInput.valid a)).2
        = Except.ok resp ∧
      resp.reached_zero = false ∧ resp.became_low_stock = false ∧
      resp.added_to_shopping = false := by
  have hnot : ¬ a > 0 := by linarith
  by_cases hu : st.item.used
  · by_cases hp : (0 : ℚ) < q + |a|
    · simp [pantry_reduce_quantity, hq, if_neg hnot, if_pos ha, hu, hp]
    · simp [pantry_reduce_quantity, hq, if_neg hnot, if_pos ha, hu, hp]
  · simp [pantry_reduce_quantity, hq, if_neg hnot, if_pos ha, hu]

theorem C7_replenish_path_witness :
    (({ item := { name := "Milk", quantity_amount := some 2, unit := "qt",
                  low_stock_threshold := none, used := true },
        shopping := [] } : State).item.quantity_amount = some 2 ∧
      (-3 : ℚ) < 0) ∧
    (pantry_reduce_quantity
      { item := { name := "Milk", quantity_amount := some 2, unit := "qt",
                  low_stock_threshold := none, used := true },
        shopping := [] } (AmountInput.valid (-3))).1.item.quantity_amount
      = some (2 + |(-3 : ℚ)|) :=
  ⟨⟨rfl, by norm_num⟩,
    (C7_replenish_path _ 2 (-3) rfl (by norm_num)).1⟩

/-- C2: the replenishment dispatch after a positive reduce follows the
three-way decision table: on `reachedZero` the entry is ensured
(check-then-create, case-insensitive) and low-stock handling is preempted
(`becameLowStock = false`); else on a fresh low-stock crossing the entry is
ensured and `becameLowStock = true`; else the shopping list is untouched. -/
theorem C2_dispatch_decision_table (st : State) (q a : ℚ)
    (hq : st.item.quantity_amount = some q) (ha : 0 < a) :
    ∃ resp, (pantry_reduce_quantity st (AmountInput.valid a)).2
        = Except.ok resp ∧
      ((resp.reached_zero = true ∧
          (pantry_reduce_quantity st (AmountInput.valid a)).1.shopping
            = ensureEntry st.shopping st.item ∧
          resp.added_to_shopping = !existsUnchecked st.shopping st.item.name ∧
          resp.became_low_stock = false) ∨
       (resp.reached_zero = false ∧ st.item.is_low_stock = false ∧
          resp.is_low_stock = true ∧
          (pantry_reduce_quantity st (AmountInput.valid a)).1.shopping
            = ensureEntry st.shopping st.item ∧
          resp.added_to_shopping = !existsUnchecked st.shopping st.item.name ∧
          resp.became_low_stock = true) ∨
       (resp.reached_zero = false ∧
          (st.item.is_low_stock = true ∨ resp.is_low_stock = false) ∧
          (pantry_reduce_quantity st (AmountInput.valid a)).1.shopping
            = st.shopping ∧
          resp.added_to_shopping = false ∧ resp.became_low_stock = false)) := by
  by_cases hz : max 0 (q - a) = 0
  · have hred : st.item.reduce_quantity a =
        ({ st.item with
           quantity_amount := some (max 0 (q - a)), used := true }, true) := by
      rw [PantryItem.reduce_quantity, hq]
      simp [hz]
    simp [pantry_reduce_quantity, hq, if_pos ha, hred, ensureEntry]
  · have hred : st.item.reduce_quantity a =
        ({ st.item with quantity_amount := some (max 0 (q - a)) }, false) := by
      rw [PantryItem.reduce_quantity, hq]
      simp [hz]
    by_cases hl :
        (({ st.item with
            quantity_amount := some (max 0 (q - a)) } : PantryItem).is_low_stock
          && !st.item.is_low_stock) = true
    · have hwas : st.item.is_low_stock = false := by
        rcases Bool.and_eq_true_iff.mp hl with ⟨-, h2⟩
        simpa using h2
      have hnow :
          ({ st.item with
             quantity_amount := some (max 0 (q - a)) } : PantryItem).is_low_stock
            = true :=
        (Bool.and_eq_true_iff.mp hl).1
      simp [pantry_reduce_quantity, hq, if_pos ha, hred, hl, hwas, hnow,
        ensureEntry]
    · by_cases hnow :
          ({ st.item with
             quantity_amount := some (max 0 (q - a)) } : PantryItem).is_low_stock
            = true
      · have hw : st.item.is_low_stock = true := by
          rw [hnow] at hl
          simpa using hl
        simp [pantry_reduce_quantity, hq, if_pos ha, hred, hl, hw, hnow]
      · have hn : ({ st.item with
            quantity_amount := some (max 0 (q - a)) } : PantryItem).is_low_stock
              = false := Bool.eq_false_iff.mpr hnow
        simp [pantry_reduce_quantity, hq, if_pos ha, hred, hl, hn]

theorem C2_dispatch_decision_table_witness :
    (({ item := { name := "Eggs", quantity_amount := some 2, unit := "ct",
                  low_stock_threshold := some (1/2), used := false },
        shopping := [] } : State).item.quantity_amount = some 2 ∧
      (0 : ℚ) < 3) ∧
    ∃ resp, (pantry_reduce_quantity
        { item := { name := "Eggs", quantity_amount := some 2, unit := "ct",
                    low_stock_threshold := some (1/2), used := false },
          shopping := [] } (AmountInput.valid 3)).2 = Except.ok resp :=
  ⟨⟨rfl, by norm_num⟩,
    ((C2_dispatch_decision_table _ 2 3 rfl (by norm_num)).imp
      fun _ h => h.1)⟩

/-- One positive-amount call updates the item exactly as `reduce_quantity`
does; the shopping logic leaves the item component alone. -/
theorem step_item (st : State) (a q : ℚ)
    (hq : st.item.quantity_amount = some q) (ha : 0 < a) :
    (step st a).item = (st.item.reduce_quantity a).1 := by
  simp only [step, pantry_reduce_quantity, hq, if_pos ha]
  split
  · rfl
  · split
    · rfl
    · rfl

/-- `reduce_quantity` floors the quantity at zero and sets `used` when the
floor is hit. -/
theorem reduce_item_inv (item : PantryItem) (a q : ℚ)
    (hq : item.quantity_amount = some q) :
    (item.reduce_quantity a).1.quantity_amount = some (max 0 (q - a)) ∧
      (max 0 (q - a) = 0 → (item.reduce_quantity a).1.used = true) := by
  rw [PantryItem.reduce_quantity, hq]
  by_cases hz : max 0 (q - a) = 0 <;> simp [hz]

/-- C1: along any sequence of positive reduces on an item with a numeric
quantity, the quantity stays defined, non-negative and non-increasing, it is
`used = true` whenever it is zero, and once at zero it stays at zero with
`used` still true. -/
theorem C1_no_negative_quantity (st : State) (q0 : ℚ) (amounts : List ℚ)
    (hq : st.item.quantity_amount = some q0) (h0 : 0 ≤ q0)
    (hu : q0 = 0 → st.item.used = true)
    (hpos : ∀ a ∈ amounts, 0 < a) :
    (∃ q', (runSeq st amounts).item.quantity_amount = some q' ∧ 0 ≤ q' ∧
      q' ≤ q0 ∧ (q' = 0 → (runSeq st amounts).item.used = true)) ∧
    (q0 = 0 → (runSeq st amounts).item.quantity_amount = some 0 ∧
      (runSeq st amounts).item.used = true) := by
  induction amounts generalizing st q0 with
  | nil =>
    exact ⟨⟨q0, hq, h0, le_refl _, hu⟩,
      fun h => ⟨by rw [runSeq, hq, h], by rw [runSeq]; exact hu h⟩⟩
  | cons a rest ih =>
    have ha : 0 < a := hpos a (List.mem_cons_self a rest)
    have hitem : (step st a).item = (st.item.reduce_quantity a).1 :=
      step_item st a q0 hq ha
    have hinv := reduce_item_inv st.item a q0 hq
    have hq1 : (step st a).item.quantity_amount = some (max 0 (q0 - a)) := by
      rw [hitem]; exact hinv.1
    have hu1 : max 0 (q0 - a) = 0 → (step st a).item.used = true := by
      rw [hitem]; exact hinv.2
    have h01 : (0 : ℚ) ≤ max 0 (q0 - a) := le_max_left _ _
    have hrest : ∀ b ∈ rest, 0 < b :=
      fun b hb => hpos b (List.mem_cons_of_mem a hb)
    obtain ⟨⟨q', h1, h2, h3, h4⟩, hzero⟩ :=
      ih (step st a) (max 0 (q0 - a)) hq1 h01 hu1 hrest
    have hle : max 0 (q0 - a) ≤ q0 := max_le h0 (by linarith)
    refine ⟨⟨q', h1, h2, le_trans h3 hle, h4⟩, fun h => ?_⟩
    exact hzero (by rw [h]; exact max_eq_left (by linarith))

theorem C1_no_negative_quantity_witness :
    (({ item := { name := "Milk", quantity_amount := some 2, unit := "qt",
                  low_stock_threshold := none, used := false },
        shopping := [] } : State).item.quantity_amount = some 2 ∧
      (0 : ℚ) ≤ 2 ∧ (∀ a ∈ [(3 : ℚ)/2, 1, 1], 0 < a)) ∧
    ∃ q', (runSeq
        { item := { name := "Milk", quantity_amount := some 2, unit := "qt",
                    low_stock_threshold := none, used := false },
          shopping := [] } [(3 : ℚ)/2, 1, 1]).item.quantity_amount = some q' ∧
      0 ≤ q' ∧ q' ≤ 2 ∧
      (q' = 0 → (runSeq
        { item := { name := "Milk", quantity_amount := some 2, unit := "qt",
                    low_stock_threshold := none, used := false },
          shopping := [] } [(3 : ℚ)/2, 1, 1]).item.used = true) := by
  have hpos : ∀ a ∈ [(3 : ℚ)/2, 1, 1], 0 < a := by
    intro a ha
    simp only [List.mem_cons, List.not_mem_nil, or_false] at ha
    rcases ha with rfl | rfl | rfl <;> norm_num
  exact ⟨⟨rfl, by norm_num, hpos⟩,
    (C1_no_negative_quantity _ 2 _ rfl (by norm_num)
      (fun h => absurd h (by norm_num)) hpos).1⟩

/-- Number of unchecked shopping entries whose name matches `n`
case-insensitively. -/
def countUnchecked (shopping : List ShoppingItem) (n : String) : Nat :=
  (shopping.filter
    fun s => s.name.toLower == n.toLower && s.checked == false).length

/-- A whole pantry table plus the shopping table, for sequences of endpoint
calls addressing different items. -/
structure MultiState where
  items : List PantryItem
  shopping : List ShoppingItem

/-- One endpoint call addressed at the item in position `c.1` (a call for an
unknown id is a 404 and changes nothing). -/
def stepMulti (ms : MultiState) (c : Nat × AmountInput) : MultiState :=
  match ms.items.get? c.1 with
  | none => ms
  | some it =>
    let out := pantry_reduce_quantity { item := it, shopping := ms.shopping } c.2
    { items := ms.items.set c.1 out.1.item, shopping := out.1.shopping }

/-- Run a sequence of non-concurrent endpoint calls. -/
def runMulti (ms : MultiState) : List (Nat × AmountInput) → MultiState
  | [] => ms
  | c :: rest => runMulti (stepMulti ms c) rest

/-- The endpoint either leaves the shopping list alone, or — only when no
unchecked entry with the item's name exists — appends the one new entry. -/
theorem step_shopping_cases (st : State) (input : AmountInput) :
    (pantry_reduce_quantity st input).1.shopping = st.shopping ∨
      (existsUnchecked st.shopping st.item.name = false ∧
        (pantry_reduce_quantity st input).1.shopping
          = st.shopping ++ [newShoppingEntry st.item]) := by
  rw [pantry_reduce_quantity]
  match hq : st.item.quantity_amount with
  | none => exact Or.inl rfl
  | some q =>
    match input with
    | AmountInput.invalid => exact Or.inl rfl
    | AmountInput.valid a =>
      simp only
      split
      · split
        · split
          next hex => exact Or.inl rfl
          next hex => exact Or.inr ⟨Bool.eq_false_iff.mpr hex, rfl⟩
        · split
          · split
            next hex => exact Or.inl rfl
            next hex => exact Or.inr ⟨Bool.eq_false_iff.mpr hex, rfl⟩
          · exact Or.inl rfl
      · split
        · exact Or.inl rfl
        · exact Or.inl rfl

/-- Appending the dispatcher's entry when none existed keeps the unchecked
count for every name at most `max` of the old count and one. -/
theorem countUnchecked_append (sh : List ShoppingItem) (item : PantryItem)
    (n : String) (hno : existsUnchecked sh item.name = false) :
    countUnchecked (sh ++ [newShoppingEntry item]) n
      ≤ max (countUnchecked sh n) 1 := by
  rw [countUnchecked, List.filter_append, List.length_append]
  by_cases hm : (item.name.toLower == n.toLower) = true
  · have hn : item.name.toLower = n.toLower := by
      exact eq_of_beq hm
    have hzero : countUnchecked sh n = 0 := by
      rw [countUnchecked, List.length_eq_zero]
      rw [List.filter_eq_nil_iff]
      intro s hs
      intro hcontra
      have hany := (Bool.eq_false_iff.mp hno)
      apply hany
      rw [existsUnchecked, List.any_eq_true]
      refine ⟨s, hs, ?_⟩
      rw [hn]
      exact hcontra
    rw [countUnchecked] at hzero
    rw [hzero]
    simp [newShoppingEntry, hm]
  · have : (List.filter
        (fun s => s.name.toLower == n.toLower && s.checked == false)
        [newShoppingEntry item]).length = 0 := by
      simp [newShoppingEntry, hm]
    rw [this]
    simp [countUnchecked]

/-- One call keeps every name's unchecked count at most `max` of the old
count and one. -/
theorem stepMulti_count (ms : MultiState) (c : Nat × AmountInput)
    (n : String) :
    countUnchecked (stepMulti ms c).shopping n
      ≤ max (countUnchecked ms.shopping n) 1 := by
  rw [stepMulti]
  match hg : ms.items.get? c.1 with
  | none => exact le_max_left _ _ |>.trans (le_refl _) |>.trans (le_refl _)
  | some it =>
    simp only
    rcases step_shopping_cases { item := it, shopping := ms.shopping } c.2
      with h | ⟨hno, h⟩
    · rw [h]
      exact le_max_left _ _
    · rw [h]
      exact countUnchecked_append ms.shopping it n hno

/-- C5: across any sequence of non-concurrent endpoint calls, the number of
unchecked shopping entries with a given name (case-insensitive) never exceeds
`max` of its initial value and one; in particular the dispatcher creates at
most one such entry. -/
theorem C5_dedup_invariant (ms : MultiState)
    (calls : List (Nat × AmountInput)) (n : String) :
    countUnchecked (runMulti ms calls).shopping n
        ≤ max (countUnchecked ms.shopping n) 1 ∧
      countUnchecked (runMulti ms calls).shopping n
        - countUnchecked ms.shopping n ≤ 1 := by
  have main : countUnchecked (runMulti ms calls).shopping n
      ≤ max (countUnchecked ms.shopping n) 1 := by
    induction calls generalizing ms with
    | nil => rw [runMulti]; exact le_max_left _ _
    | cons c rest ih =>
      rw [runMulti]
      refine le_trans (ih (stepMulti ms c)) ?_
      have h1 := stepMulti_count ms c n
      exact max_le (le_trans h1 (le_refl _)) (le_max_right _ _)
  refine ⟨main, ?_⟩
  have : max (countUnchecked ms.shopping n) 1
      ≤ countUnchecked ms.shopping n + 1 := by
    rcases Nat.le_total (countUnchecked ms.shopping n) 1 with h | h
    · omega
    · omega
  omega

/-- The quantity stays strictly positive along the whole reduce sequence
(no step reaches zero). -/
def staysPositive (q : ℚ) : List ℚ → Bool
  | [] => true
  | a :: rest => decide (0 < q - a) && staysPositive (q - a) rest

/-- The `became_low_stock` flag of one endpoint outcome. -/
def becameOf : Except String ReduceResponse → Bool
  | Except.ok resp => resp.became_low_stock
  | Except.error _ => false

/-- The `became_low_stock` flags reported along a reduce sequence. -/
def becameFlags (st : State) (amounts : List ℚ) : List Bool :=
  (runSeqResponses st amounts).2.map becameOf

theorem becameFlags_cons (st : State) (a : ℚ) (rest : List ℚ) :
    becameFlags st (a :: rest)
      = becameOf (pantry_reduce_quantity st (AmountInput.valid a)).2
        :: becameFlags (step st a) rest := rfl

/-- One positive step that keeps the quantity positive: the item's quantity
drops by the amount, the threshold is untouched, and `became_low_stock` is
reported exactly on a fresh crossing. -/
theorem step_flag (st : State) (q t a : ℚ)
    (hq : st.item.quantity_amount = some q)
    (ht : st.item.low_stock_threshold = some t)
    (ha : 0 < a) (hstay : 0 < q - a) :
    becameOf (pantry_reduce_quantity st (AmountInput.valid a)).2
        = (decide (q - a ≤ t) && !decide (q ≤ t)) ∧
      (step st a).item.quantity_amount = some (q - a) ∧
      (step st a).item.low_stock_threshold = some t := by
  have hmax : max 0 (q - a) = q - a := max_eq_right (le_of_lt hstay)
  have hz : ¬ max 0 (q - a) = 0 := by rw [hmax]; exact ne_of_gt hstay
  have hred : st.item.reduce_quantity a =
      ({ st.item with quantity_amount := some (max 0 (q - a)) }, false) := by
    rw [PantryItem.reduce_quantity, hq]
    simp [hz]
  by_cases hc : q - a ≤ t <;> by_cases hw : q ≤ t <;>
    refine ⟨?_, ?_, ?_⟩ <;>
    simp [pantry_reduce_quantity, step, becameOf, hq, if_pos ha, hred,
      PantryItem.is_low_stock, ht, hmax, hc, hw]

/-- While the item is already low-stock and the quantity stays positive, no
step reports `became_low_stock`, and the item is still low-stock at the end. -/
theorem low_run (amounts : List ℚ) (st : State) (q t : ℚ)
    (hq : st.item.quantity_amount = some q)
    (ht : st.item.low_stock_threshold = some t) (hlow : q ≤ t)
    (hpos : ∀ a ∈ amounts, 0 < a) (hstay : staysPositive q amounts = true) :
    (becameFlags st amounts).count true = 0 ∧
      (runSeq st amounts).item.is_low_stock = true := by
  induction amounts generalizing st q with
  | nil =>
    refine ⟨rfl, ?_⟩
    rw [runSeq, PantryItem.is_low_stock, hq, ht]
    simpa using hlow
  | cons a rest ih =>
    have ha : 0 < a := hpos a (List.mem_cons_self a rest)
    rw [staysPositive, Bool.and_eq_true_iff] at hstay
    have hst : 0 < q - a := of_decide_eq_true hstay.1
    obtain ⟨hflag, hq1, ht1⟩ := step_flag st q t a hq ht ha hst
    have hflag0 : becameOf (pantry_reduce_quantity st (AmountInput.valid a)).2
        = false := by
      rw [hflag]
      simp [decide_eq_true (hlow)]
    have hlow1 : q - a ≤ t := by linarith
    have hrest : ∀ b ∈ rest, 0 < b :=
      fun b hb => hpos b (List.mem_cons_of_mem a hb)
    obtain ⟨hc, hl⟩ := ih (step st a) (q - a) hq1 ht1 hlow1 hrest hstay.2
    refine ⟨?_, hl⟩
    rw [becameFlags_cons, hflag0]
    simpa using hc

/-- Starting strictly above the threshold, with the quantity staying
positive, the number of `became_low_stock = true` steps is one if the item
ends up low-stock and zero otherwise. -/
theorem high_run (amounts : List ℚ) (st : State) (q t : ℚ)
    (hq : st.item.quantity_amount = some q)
    (ht : st.item.low_stock_threshold = some t) (hhigh : t < q)
    (hpos : ∀ a ∈ amounts, 0 < a) (hstay : staysPositive q amounts = true) :
    (becameFlags st amounts).count true
      = (if (runSeq st amounts).item.is_low_stock = true then 1 else 0) := by
  induction amounts generalizing st q with
  | nil =>
    have : (runSeq st []).item.is_low_stock = false := by
      rw [runSeq, PantryItem.is_low_stock, hq, ht]
      simp
      linarith
    rw [this]
    rfl
  | cons a rest ih =>
    have ha : 0 < a := hpos a (List.mem_cons_self a rest)
    rw [staysPositive, Bool.and_eq_true_iff] at hstay
    have hst : 0 < q - a := of_decide_eq_true hstay.1
    obtain ⟨hflag, hq1, ht1⟩ := step_flag st q t a hq ht ha hst
    have hnotlow : decide (q ≤ t) = false := by
      simp
      linarith
    have hrest : ∀ b ∈ rest, 0 < b :=
      fun b hb => hpos b (List.mem_cons_of_mem a hb)
    by_cases hc : q - a ≤ t
    · have hflag1 : becameOf (pantry_reduce_quantity st (AmountInput.valid a)).2
          = true := by
        rw [hflag, hnotlow]
        simp [hc]
      obtain ⟨hcnt, hfin⟩ := low_run rest (step st a) (q - a) t hq1 ht1 hc
        hrest hstay.2
      rw [becameFlags_cons, hflag1]
      have hfin' : (runSeq st (a :: rest)).item.is_low_stock = true := hfin
      rw [hfin']
      simp [hcnt]
    · have hflag0 : becameOf (pantry_reduce_quantity st (AmountInput.valid a)).2
          = false := by
        rw [hflag]
        simp [hc]
      have := ih (step st a) (q - a) hq1 ht1 (lt_of_not_le hc) hrest hstay.2
      rw [becameFlags_cons, hflag0]
      simpa using this

/-- C6: an item starting strictly above its set low-stock threshold, reduced
by positive steps that never reach zero and that leave it low-stock at the
end, reports `became_low_stock = true` on exactly one step of the sequence. -/
theorem C6_threshold_crossing_fires_once (st : State) (q t : ℚ)
    (amounts : List ℚ)
    (hq : st.item.quantity_amount = some q)
    (ht : st.item.low_stock_threshold = some t) (hhigh : t < q)
    (hpos : ∀ a ∈ amounts, 0 < a)
    (hstay : staysPositive q amounts = true)
    (hcross : (runSeq st amounts).item.is_low_stock = true) :
    (becameFlags st amounts).count true = 1 := by
  rw [high_run amounts st q t hq ht hhigh hpos hstay, hcross]
  rfl

/-- A concrete fixture: 3 lbs of rice with a low-stock threshold of 1. -/
def riceState : State := ⟨⟨"Rice", some 3, "lbs", some 1, false⟩, []⟩

theorem C6_threshold_crossing_fires_once_witness :
    (riceState.item.quantity_amount = some 3 ∧
      riceState.item.low_stock_threshold = some 1 ∧ ((1 : ℚ) < 3) ∧
      (∀ a ∈ [(1 : ℚ), 1], 0 < a) ∧
      staysPositive 3 [(1 : ℚ), 1] = true ∧
      (runSeq riceState [(1 : ℚ), 1]).item.is_low_stock = true) ∧
    (becameFlags riceState [(1 : ℚ), 1]).count true = 1 := by
  have hpos : ∀ a ∈ [(1 : ℚ), 1], 0 < a := by
    intro a ha
    simp only [List.mem_cons, List.not_mem_nil, or_false] at ha
    rcases ha with rfl | rfl <;> norm_num
  have hstay : staysPositive 3 [(1 : ℚ), 1] = true := by
    norm_num [staysPositive]
  have hcross : (runSeq riceState [(1 : ℚ), 1]).item.is_low_stock = true := by
    norm_num [riceState, runSeq, step, pantry_reduce_quantity,
      PantryItem.reduce_quantity, PantryItem.is_low_stock, existsUnchecked,
      newShoppingEntry]
  exact ⟨⟨rfl, rfl, by norm_num, hpos, hstay, hcross⟩,
    C6_threshold_crossing_fires_once riceState 3 1 _ rfl rfl (by norm_num)
      hpos hstay hcross⟩

/-! ### Facts about `slug_fill`, `generate_nutrition` and `Recipe.save` -/

@[simp] theorem slug_fill_ingredients (env : EnrichEnv) (r : Recipe) :
    (slug_fill env r).ingredients = r.ingredients := by
  rw [slug_fill]; split <;> rfl

@[simp] theorem slug_fill_servings (env : EnrichEnv) (r : Recipe) :
    (slug_fill env r).servings = r.servings := by
  rw [slug_fill]; split <;> rfl

@[simp] theorem slug_fill_hash_col (env : EnrichEnv) (r : Recipe) :
    (slug_fill env r).ingredients_hash = r.ingredients_hash := by
  rw [slug_fill]; split <;> rfl

@[simp] theorem slug_fill_title (env : EnrichEnv) (r : Recipe) :
    (slug_fill env r).title = r.title := by
  rw [slug_fill]; split <;> rfl

@[simp] theorem slug_fill_calories (env : EnrichEnv) (r : Recipe) :
    (slug_fill env r).calories = r.calories := by
  rw [slug_fill]; split <;> rfl

@[simp] theorem slug_fill_protein (env : EnrichEnv) (r : Recipe) :
    (slug_fill env r).protein_g = r.protein_g := by
  rw [slug_fill]; split <;> rfl

@[simp] theorem slug_fill_carbs (env : EnrichEnv) (r : Recipe) :
    (slug_fill env r).carbs_g = r.carbs_g := by
  rw [slug_fill]; split <;> rfl

@[simp] theorem slug_fill_fat (env : EnrichEnv) (r : Recipe) :
    (slug_fill env r).fat_g = r.fat_g := by
  rw [slug_fill]; split <;> rfl

@[simp] theorem slug_fill_fiber (env : EnrichEnv) (r : Recipe) :
    (slug_fill env r).fiber_g = r.fiber_g := by
  rw [slug_fill]; split <;> rfl

@[simp] theorem slug_fill_sugar (env : EnrichEnv) (r : Recipe) :
    (slug_fill env r).sugar_g = r.sugar_g := by
  rw [slug_fill]; split <;> rfl

@[simp] theorem slug_fill_sodium (env : EnrichEnv) (r : Recipe) :
    (slug_fill env r).sodium_mg = r.sodium_mg := by
  rw [slug_fill]; split <;> rfl

@[simp] theorem compute_hash_slug_fill (env : EnrichEnv) (r : Recipe) :
    compute_ingredients_hash env (slug_fill env r)
      = compute_ingredients_hash env r := by
  rw [compute_ingredients_hash, compute_ingredients_hash]
  rw [slug_fill_ingredients, slug_fill_servings]

/-- `Recipe.save`, with the enrichment condition expressed over the original
row (slug filling touches no field the condition reads). -/
theorem save_eq (env : EnrichEnv) (r : Recipe) :
    Recipe.save env r =
      if (compute_ingredients_hash env r != r.ingredients_hash
          && stripNonempty r.ingredients) then
        generate_nutrition env (slug_fill env r) (compute_ingredients_hash env r)
      else
        (slug_fill env r, 0) := by
  rw [Recipe.save]
  simp only [compute_hash_slug_fill, slug_fill_hash_col, slug_fill_ingredients]

theorem gen_unconfigured (env : EnrichEnv) (r : Recipe) (h : String)
    (hconf : env.api_configured = false) :
    generate_nutrition env r h = (r, 0) := by
  simp [generate_nutrition, hconf]

theorem gen_fail (env : EnrichEnv) (r : Recipe) (h : String)
    (hconf : env.api_configured = true)
    (hcl : env.client r.ingredients r.servings = EnrichResult.fail) :
    generate_nutrition env r h = (r, 1) := by
  simp [generate_nutrition, hconf, hcl]

theorem gen_extract_none (env : EnrichEnv) (r : Recipe) (h : String)
    (d : RawNutrition) (hconf : env.api_configured = true)
    (hcl : env.client r.ingredients r.servings = EnrichResult.ok d)
    (hex : extract_all d = none) :
    generate_nutrition env r h = (r, 1) := by
  simp [generate_nutrition, hconf, hcl, hex]

theorem gen_success (env : EnrichEnv) (r : Recipe) (h : String)
    (d : RawNutrition) (n : NutritionUpdate)
    (hconf : env.api_configured = true)
    (hcl : env.client r.ingredients r.servings = EnrichResult.ok d)
    (hex : extract_all d = some n) :
    generate_nutrition env r h =
      ({ r with
         calories := some n.calories, protein_g := some n.protein_g,
         carbs_g := some n.carbs_g, fat_g := some n.fat_g,
         fiber_g := some n.fiber_g, sugar_g := some n.sugar_g,
         sodium_mg := some n.sodium_mg, ingredients_hash := h }, 1) := by
  simp [generate_nutrition, hconf, hcl, hex]

theorem gen_calls_le (env : EnrichEnv) (r : Recipe) (h : String) :
    (generate_nutrition env r h).2 ≤ 1 := by
  rw [generate_nutrition]
  split
  · exact Nat.zero_le 1
  · split
    · exact le_refl 1
    · split
      · exact le_refl 1
      · exact le_refl 1

theorem save_calls_le (env : EnrichEnv) (r : Recipe) :
    (Recipe.save env r).2 ≤ 1 := by
  rw [save_eq]
  split
  · exact gen_calls_le env _ _
  · exact Nat.zero_le 1

/-- C3: when the enrichment client succeeds on the recipe's content, saving
twice with identical ingredients and servings performs zero external calls on
the second save, and at most one call in total: the second save recomputes
the same fingerprint, finds it equal to the stored one, and skips. -/
theorem C3_fingerprint_idempotence (env : EnrichEnv) (r : Recipe)
    (hsucc : ∃ d n, env.client r.ingredients r.servings = EnrichResult.ok d ∧
      extract_all d = some n) :
    (Recipe.save env (Recipe.save env r).1).2 = 0 ∧
      (Recipe.save env r).2 + (Recipe.save env (Recipe.save env r).1).2
        ≤ 1 := by
  obtain ⟨d, n, hcl, hex⟩ := hsucc
  have hzero : (Recipe.save env (Recipe.save env r).1).2 = 0 := by
    by_cases hcond : (compute_ingredients_hash env r != r.ingredients_hash
        && stripNonempty r.ingredients) = true
    · by_cases hconf : env.api_configured = true
      · have hcl1 : env.client (slug_fill env r).ingredients
            (slug_fill env r).servings = EnrichResult.ok d := by
          rw [slug_fill_ingredients, slug_fill_servings]; exact hcl
        have hgen := gen_success env (slug_fill env r)
          (compute_ingredients_hash env r) d n hconf hcl1 hex
        have hsave1 : Recipe.save env r =
            ({ slug_fill env r with
               calories := some n.calories, protein_g := some n.protein_g,
               carbs_g := some n.carbs_g, fat_g := some n.fat_g,
               fiber_g := some n.fiber_g, sugar_g := some n.sugar_g,
               sodium_mg := some n.sodium_mg,
               ingredients_hash := compute_ingredients_hash env r }, 1) := by
          rw [save_eq, if_pos hcond, hgen]
        rw [hsave1]
        rw [save_eq]
        simp [compute_ingredients_hash]
      · have hconf0 : env.api_configured = false := Bool.eq_false_iff.mpr hconf
        have hsave1 : Recipe.save env r = (slug_fill env r, 0) := by
          rw [save_eq, if_pos hcond, gen_unconfigured env _ _ hconf0]
        rw [hsave1, save_eq]
        split <;> simp [generate_nutrition, hconf0]
    · have hsave1 : Recipe.save env r = (slug_fill env r, 0) := by
        rw [save_eq, if_neg hcond]
      rw [hsave1, save_eq]
      simp only [compute_hash_slug_fill, slug_fill_hash_col,
        slug_fill_ingredients]
      rw [if_neg hcond]
  refine ⟨hzero, ?_⟩
  have h1 := save_calls_le env r
  omega

/-- A configured environment whose client always returns a complete, parsable
nutrition estimate. -/
def okClientEnv : EnrichEnv :=
  ⟨fun s => s, fun s => s, "key",
    fun _ _ => EnrichResult.ok
      ⟨some 300, some 12, some 30, some 9, some 2, some 5, some 400⟩⟩

/-- A configured environment whose client always fails (network error or
malformed response). -/
def failClientEnv : EnrichEnv :=
  ⟨fun s => s, fun s => s, "key", fun _ _ => EnrichResult.fail⟩

/-- A configured environment whose client returns a response missing the
`calories` field. -/
def badDataEnv : EnrichEnv :=
  ⟨fun s => s, fun s => s, "key",
    fun _ _ => EnrichResult.ok
      ⟨none, some 12, some 30, some 9, some 2, some 5, some 400⟩⟩

/-- A concrete never-enriched recipe fixture. -/
def pancakes : Recipe :=
  ⟨"Pancakes", "", "2 eggs\n1 cup flour", 2,
    none, none, none, none, none, none, none, ""⟩

theorem C3_fingerprint_idempotence_witness :
    (∃ d n, okClientEnv.client pancakes.ingredients pancakes.servings
        = EnrichResult.ok d ∧ extract_all d = some n) ∧
    ((Recipe.save okClientEnv (Recipe.save okClientEnv pancakes).1).2 = 0 ∧
      (Recipe.save okClientEnv pancakes).2
        + (Recipe.save okClientEnv (Recipe.save okClientEnv pancakes).1).2
        ≤ 1) := by
  have hsucc : ∃ d n, okClientEnv.client pancakes.ingredients pancakes.servings
      = EnrichResult.ok d ∧ extract_all d = some n := by
    refine ⟨⟨some 300, some 12, some 30, some 9, some 2, some 5, some 400⟩,
      ⟨300, 12, 30, 9, 2, 5, 400⟩, rfl, ?_⟩
    norm_num [extract_all, truncInt, round1, roundHalfEvenInt]
  exact ⟨hsucc, C3_fingerprint_idempotence okClientEnv pancakes hsucc⟩

/-- C4: when the enrichment attempt runs and fails (client failure or
unextractable response), the save leaves every nutrition field and the
fingerprint unchanged, still persists the primary fields, reports exactly one
external call, and a second save with identical ingredients retries (one more
call). -/
theorem C4_enrichment_failure_preserves_state (env : EnrichEnv) (r : Recipe)
    (hconf : env.api_configured = true)
    (hch : (compute_ingredients_hash env r != r.ingredients_hash) = true)
    (hne : stripNonempty r.ingredients = true)
    (hfail : env.client r.ingredients r.servings = EnrichResult.fail ∨
      ∃ d, env.client r.ingredients r.servings = EnrichResult.ok d ∧
        extract_all d = none) :
    (Recipe.save env r).1.calories = r.calories ∧
    (Recipe.save env r).1.protein_g = r.protein_g ∧
    (Recipe.save env r).1.carbs_g = r.carbs_g ∧
    (Recipe.save env r).1.fat_g = r.fat_g ∧
    (Recipe.save env r).1.fiber_g = r.fiber_g ∧
    (Recipe.save env r).1.sugar_g = r.sugar_g ∧
    (Recipe.save env r).1.sodium_mg = r.sodium_mg ∧
    (Recipe.save env r).1.ingredients_hash = r.ingredients_hash ∧
    (Recipe.save env r).1.ingredients = r.ingredients ∧
    (Recipe.save env r).1.servings = r.servings ∧
    (Recipe.save env r).1.title = r.title ∧
    (Recipe.save env r).2 = 1 ∧
    (Recipe.save env (Recipe.save env r).1).2 = 1 := by
  have hcond : (compute_ingredients_hash env r != r.ingredients_hash
      && stripNonempty r.ingredients) = true := by
    simp [hch, hne]
  have hgenAll : ∀ (s : Recipe) (hs : String), s.ingredients = r.ingredients →
      s.servings = r.servings → generate_nutrition env s hs = (s, 1) := by
    intro s hs h1 h2
    rcases hfail with hf | ⟨d, hcl, hex⟩
    · exact gen_fail env s hs hconf (by rw [h1, h2]; exact hf)
    · exact gen_extract_none env s hs d hconf (by rw [h1, h2]; exact hcl) hex
  have hsave1 : Recipe.save env r = (slug_fill env r, 1) := by
    rw [save_eq, if_pos hcond,
      hgenAll (slug_fill env r) _ (slug_fill_ingredients env r)
        (slug_fill_servings env r)]
  have hsecond : (Recipe.save env (slug_fill env r)).2 = 1 := by
    rw [save_eq]
    simp only [compute_hash_slug_fill, slug_fill_hash_col,
      slug_fill_ingredients]
    rw [if_pos hcond,
      hgenAll (slug_fill env (slug_fill env r)) _ (by simp) (by simp)]
  rw [hsave1]
  exact ⟨slug_fill_calories env r, slug_fill_protein env r,
    slug_fill_carbs env r, slug_fill_fat env r, slug_fill_fiber env r,
    slug_fill_sugar env r, slug_fill_sodium env r, slug_fill_hash_col env r,
    slug_fill_ingredients env r, slug_fill_servings env r,
    slug_fill_title env r, rfl, hsecond⟩

theorem C4_enrichment_failure_preserves_state_witness :
    (failClientEnv.api_configured = true ∧
      (compute_ingredients_hash failClientEnv pancakes
        != pancakes.ingredients_hash) = true ∧
      stripNonempty pancakes.ingredients = true ∧
      failClientEnv.client pancakes.ingredients pancakes.servings
        = EnrichResult.fail) ∧
    ((Recipe.save failClientEnv pancakes).1.calories = pancakes.calories ∧
      (Recipe.save failClientEnv pancakes).1.ingredients_hash
        = pancakes.ingredients_hash ∧
      (Recipe.save failClientEnv pancakes).2 = 1 ∧
      (Recipe.save failClientEnv
        (Recipe.save failClientEnv pancakes).1).2 = 1) := by
  have h := C4_enrichment_failure_preserves_state failClientEnv pancakes
    rfl rfl rfl (Or.inl rfl)
  exact ⟨⟨rfl, rfl, rfl, rfl⟩, h.1, h.2.2.2.2.2.2.2.1, h.2.2.2.2.2.2.2.2.2.2.2.1,
    h.2.2.2.2.2.2.2.2.2.2.2.2⟩

/-- The seven values a successful extraction stores: the gram fields are
integer multiples of one tenth and the calorie/sodium fields are integers. -/
theorem extract_all_shape (d : RawNutrition) (n : NutritionUpdate)
    (hex : extract_all d = some n) :
    (∃ z : ℤ, n.calories = (z : ℚ)) ∧
    (∃ z : ℤ, n.protein_g = (z : ℚ) / 10) ∧
    (∃ z : ℤ, n.carbs_g = (z : ℚ) / 10) ∧
    (∃ z : ℤ, n.fat_g = (z : ℚ) / 10) ∧
    (∃ z : ℤ, n.fiber_g = (z : ℚ) / 10) ∧
    (∃ z : ℤ, n.sugar_g = (z : ℚ) / 10) ∧
    (∃ z : ℤ, n.sodium_mg = (z : ℚ)) := by
  rcases hcal : d.calories with _ | cal
  · simp [extract_all, hcal] at hex
  rcases hp : d.protein_g with _ | p
  · simp [extract_all, hcal, hp] at hex
  rcases hc : d.carbs_g with _ | c
  · simp [extract_all, hcal, hp, hc] at hex
  rcases hf : d.fat_g with _ | f
  · simp [extract_all, hcal, hp, hc, hf] at hex
  rcases hfi : d.fiber_g with _ | fi
  · simp [extract_all, hcal, hp, hc, hf, hfi] at hex
  rcases hs : d.sugar_g with _ | s
  · simp [extract_all, hcal, hp, hc, hf, hfi, hs] at hex
  rcases hso : d.sodium_mg with _ | so
  · simp [extract_all, hcal, hp, hc, hf, hfi, hs, hso] at hex
  have hn : n = {
      calories := (truncInt cal : ℚ), protein_g := round1 p,
      carbs_g := round1 c, fat_g := round1 f, fiber_g := round1 fi,
      sugar_g := round1 s, sodium_mg := (truncInt so : ℚ) } := by
    simp [extract_all, hcal, hp, hc, hf, hfi, hs, hso] at hex
    exact hex.symm
  subst hn
  exact ⟨⟨truncInt cal, rfl⟩, ⟨roundHalfEvenInt (10 * p), rfl⟩,
    ⟨roundHalfEvenInt (10 * c), rfl⟩, ⟨roundHalfEvenInt (10 * f), rfl⟩,
    ⟨roundHalfEvenInt (10 * fi), rfl⟩, ⟨roundHalfEvenInt (10 * s), rfl⟩,
    ⟨truncInt so, rfl⟩⟩

/-- C9: a successful enrichment stores the five gram fields as integer
multiples of one tenth (one decimal place) and calories/sodium as integers;
a response from which any of the seven fields cannot be extracted persists
nothing at all. -/
theorem C9_nutrition_normalized (env : EnrichEnv) (r : Recipe) (h : String) :
    (∀ d, env.client r.ingredients r.servings = EnrichResult.ok d →
      extract_all d = none → (generate_nutrition env r h).1 = r) ∧
    (∀ d n, env.api_configured = true →
      env.client r.ingredients r.servings = EnrichResult.ok d →
      extract_all d = some n →
      ((∃ z : ℤ, (generate_nutrition env r h).1.calories = some (z : ℚ)) ∧
       (∃ z : ℤ, (generate_nutrition env r h).1.protein_g
          = some ((z : ℚ) / 10)) ∧
       (∃ z : ℤ, (generate_nutrition env r h).1.carbs_g
          = some ((z : ℚ) / 10)) ∧
       (∃ z : ℤ, (generate_nutrition env r h).1.fat_g
          = some ((z : ℚ) / 10)) ∧
       (∃ z : ℤ, (generate_nutrition env r h).1.fiber_g
          = some ((z : ℚ) / 10)) ∧
       (∃ z : ℤ, (generate_nutrition env r h).1.sugar_g
          = some ((z : ℚ) / 10)) ∧
       (∃ z : ℤ, (generate_nutrition env r h).1.sodium_mg
          = some (z : ℚ)))) := by
  constructor
  · intro d hcl hex
    by_cases hconf : env.api_configured = true
    · rw [gen_extract_none env r h d hconf hcl hex]
    · rw [gen_unconfigured env r h (Bool.eq_false_iff.mpr hconf)]
  · intro d n hconf hcl hex
    obtain ⟨⟨z1, h1⟩, ⟨z2, h2⟩, ⟨z3, h3⟩, ⟨z4, h4⟩, ⟨z5, h5⟩, ⟨z6, h6⟩,
      ⟨z7, h7⟩⟩ := extract_all_shape d n hex
    rw [gen_success env r h d n hconf hcl hex]
    exact ⟨⟨z1, by rw [show ({ r with
        calories := some n.calories, protein_g := some n.protein_g,
        carbs_g := some n.carbs_g, fat_g := some n.fat_g,
        fiber_g := some n.fiber_g, sugar_g := some n.sugar_g,
        sodium_mg := some n.sodium_mg,
        ingredients_hash := h } : Recipe).calories = some n.calories from rfl,
        h1]⟩,
      ⟨z2, by rw [show ({ r with
        calories := some n.calories, protein_g := some n.protein_g,
        carbs_g := some n.carbs_g, fat_g := some n.fat_g,
        fiber_g := some n.fiber_g, sugar_g := some n.sugar_g,
        sodium_mg := some n.sodium_mg,
        ingredients_hash := h } : Recipe).protein_g = some n.protein_g from
        rfl, h2]⟩,
      ⟨z3, by rw [show ({ r with
        calories := some n.calories, protein_g := some n.protein_g,
        carbs_g := some n.carbs_g, fat_g := some n.fat_g,
        fiber_g := some n.fiber_g, sugar_g := some n.sugar_g,
        sodium_mg := some n.sodium_mg,
        ingredients_hash := h } : Recipe).carbs_g = some n.carbs_g from rfl,
        h3]⟩,
      ⟨z4, by rw [show ({ r with
        calories := some n.calories, protein_g := some n.protein_g,
        carbs_g := some n.carbs_g, fat_g := some n.fat_g,
        fiber_g := some n.fiber_g, sugar_g := some n.sugar_g,
        sodium_mg := some n.sodium_mg,
        ingredients_hash := h } : Recipe).fat_g = some n.fat_g from rfl,
        h4]⟩,
      ⟨z5, by rw [show ({ r with
        calories := some n.calories, protein_g := some n.protein_g,
        carbs_g := some n.carbs_g, fat_g := some n.fat_g,
        fiber_g := some n.fiber_g, sugar_g := some n.sugar_g,
        sodium_mg := some n.sodium_mg,
        ingredients_hash := h } : Recipe).fiber_g = some n.fiber_g from rfl,
        h5]⟩,
      ⟨z6, by rw [show ({ r with
        calories := some n.calories, protein_g := some n.protein_g,
        carbs_g := some n.carbs_g, fat_g := some n.fat_g,
        fiber_g := some n.fiber_g, sugar_g := some n.sugar_g,
        sodium_mg := some n.sodium_mg,
        ingredients_hash := h } : Recipe).sugar_g = some n.sugar_g from rfl,
        h6]⟩,
      ⟨z7, by rw [show ({ r with
        calories := some n.calories, protein_g := some n.protein_g,
        carbs_g := some n.carbs_g, fat_g := some n.fat_g,
        fiber_g := some n.fiber_g, sugar_g := some n.sugar_g,
        sodium_mg := some n.sodium_mg,
        ingredients_hash := h } : Recipe).sodium_mg = some n.sodium_mg from
        rfl, h7]⟩⟩

theorem C9_nutrition_normalized_witness :
    ((badDataEnv.client pancakes.ingredients pancakes.servings
        = EnrichResult.ok
          ⟨none, some 12, some 30, some 9, some 2, some 5, some 400⟩ ∧
      extract_all
          ⟨none, some 12, some 30, some 9, some 2, some 5, some 400⟩
        = none ∧
      (generate_nutrition badDataEnv pancakes "h").1 = pancakes) ∧
     (okClientEnv.api_configured = true ∧
      okClientEnv.client pancakes.ingredients pancakes.servings
        = EnrichResult.ok
          ⟨some 300, some 12, some 30, some 9, some 2, some 5, some 400⟩ ∧
      ∃ z : ℤ, (generate_nutrition okClientEnv pancakes "h").1.protein_g
        = some ((z : ℚ) / 10))) := by
  have hexn : extract_all
      (⟨none, some 12, some 30, some 9, some 2, some 5, some 400⟩ :
        RawNutrition) = none := rfl
  have hexs : extract_all
      (⟨some 300, some 12, some 30, some 9, some 2, some 5, some 400⟩ :
        RawNutrition) = some ⟨300, 12, 30, 9, 2, 5, 400⟩ := by
    norm_num [extract_all, truncInt, round1, roundHalfEvenInt]
  refine ⟨⟨rfl, hexn, ?_⟩, rfl, rfl, ?_⟩
  · exact (C9_nutrition_normalized badDataEnv pancakes "h").1 _ rfl hexn
  · exact ((C9_nutrition_normalized okClientEnv pancakes "h").2 _ _
      rfl rfl hexs).2.1

end KitchenManager
